import Mathlib

/-!
Shallow embedding of the SeniorAutoPonto scheduling/execution core.

The repository contains two near-identical variants of the same script:
  - src/index.js            — "precise" strategy: node-cron triggers once at the
                              nominal minute (weekday field in the cron expression),
                              then a one-shot setTimeout fires the punch at the
                              jittered instant;
  - src/unnamed/part_000    — "coarse" strategy: node-cron ticks every minute
                              (pattern * * * * *) and each tick checks whether
                              "now" lies in a ±30 s window around the jittered
                              instant.

Time model: instants are integer seconds; a calendar day with index d (in the
configured timezone, day 0 being a Sunday) starts at instant d * 86400.  The
scripts only ever compare moments built from whole seconds at the granularity
the claims need, so integer seconds are faithful.  Randomness (Math.random())
is modelled as an explicit rational argument q with 0 ≤ q < 1 supplied at each
point where the script calls Math.random().
-/

namespace SeniorAutoPonto

/-- A configured time of day (one entry of SCHEDULES, parsed as HH:mm). -/
structure NominalTime where
  hour : ℕ
  minute : ℕ
deriving Repr, DecidableEq

/-- Second-of-day of a nominal time. -/
def secondsOfDay (t : NominalTime) : ℤ := t.hour * 3600 + t.minute * 60

/-- A webhook outcome event, reduced to the fields the claims are about. -/
structure Event where
  status : String
  reason : Option String
deriving Repr, DecidableEq

/-- The jitter draw, from both scripts (index.js:308, part_000:232):
Math.floor(Math.random() * config.randomOffset * 2) - config.randomOffset,
where q models the Math.random() value in [0, 1). -/
def jitterOffset (randomOffset : ℕ) (q : ℚ) : ℤ :=
  ⌊q * (2 * (randomOffset : ℚ))⌋ - randomOffset

/-- isVacationPeriod from index.js:64-69 and part_000:80-84.  The configured
vacation bounds are parsed with format YYYY-MM-DD, so they are the midnight
instants of the start and end dates; vac = some (s, e) holds those instants.
The script evaluates now.isBetween(start, end, null, brackets-inclusive),
i.e. an inclusive comparison of instants: s ≤ now ∧ now ≤ e. -/
def isVacationPeriod (vac : Option (ℤ × ℤ)) (now : ℤ) : Bool :=
  match vac with
  | none => false
  | some (s, e) => decide (s ≤ now ∧ now ≤ e)

/-- Midnight instant of day index d. -/
def startOfDay (d : ℤ) : ℤ := d * 86400

/-- Weekday (0 = Sunday .. 6 = Saturday) of a day index, day 0 being a Sunday. -/
def weekdayOfDay (d : ℤ) : ℤ := d % 7

/-- Firing condition of the coarse minute-poll variant (part_000:231-236):
baseTime is today at the schedule's hour:minute (seconds zeroed), the offset is
drawn fresh at this tick, and the tick fires iff now lies strictly between
punchTime − 30 s and punchTime + 30 s (moment isBetween default exclusivity).
day and sodNow locate the tick: now = day * 86400 + sodNow. -/
def coarseFires (randomOffset : ℕ) (sched : NominalTime) (day sodNow : ℤ) (q : ℚ) : Bool :=
  let now := day * 86400 + sodNow
  let base := day * 86400 + secondsOfDay sched
  let punchTime := base + jitterOffset randomOffset q
  decide (punchTime - 30 < now ∧ now < punchTime + 30)

/-- Observable effect of one coarse tick for one schedule entry. -/
structure CoarseTickEffect where
  fired : Bool
  events : List Event
  executorInvoked : Bool
  randomDraws : ℕ
  offset : ℤ
deriving Repr, DecidableEq

/-- One schedule entry of one minute tick of part_000's schedulePunches
(part_000:226-266).  The offset is computed (one Math.random() draw) before the
window test; inside the window the vacation gate either emits the skipped event
with reason vacation_period, or the punch is executed (authenticate + punchClock)
and its success/error webhook — abstracted as execEvent — is emitted. -/
def coarseTick (randomOffset : ℕ) (vac : Option (ℤ × ℤ)) (sched : NominalTime)
    (day sodNow : ℤ) (q : ℚ) (execEvent : Event) : CoarseTickEffect :=
  let offset := jitterOffset randomOffset q
  if coarseFires randomOffset sched day sodNow q then
    if isVacationPeriod vac (day * 86400 + sodNow) then
      { fired := true, events := [⟨"skipped", some "vacation_period"⟩],
        executorInvoked := false, randomDraws := 1, offset := offset }
    else
      { fired := true, events := [execEvent],
        executorInvoked := true, randomDraws := 1, offset := offset }
  else
    { fired := false, events := [], executorInvoked := false,
      randomDraws := 1, offset := offset }

/-- Observable effect of one cron trigger of the precise variant. -/
structure PreciseFireEffect where
  events : List Event
  executorInvoked : Bool
  timeoutDelay : Option ℤ
  randomDraws : ℕ
deriving Repr, DecidableEq

/-- One cron trigger of index.js's schedulePunches callback (index.js:294-350).
node-cron fires at the schedule's hour:minute on a matching weekday; lag ≥ 0 is
the processing delay between the trigger instant and the moment() reads inside
the callback.  The vacation gate (checked first, before any Math.random() call)
emits a skipped event with reason "Modo férias ativo" and registers no timer;
otherwise one offset is drawn, punchTime = baseTime + offset, and the punch is
scheduled via setTimeout with delay max(punchTime − now, 0). -/
def preciseFire (vac : Option (ℤ × ℤ)) (randomOffset : ℕ) (sched : NominalTime)
    (day : ℤ) (lag : ℤ) (q : ℚ) (execEvent : Event) : PreciseFireEffect :=
  let now := day * 86400 + secondsOfDay sched + lag
  if isVacationPeriod vac now then
    { events := [⟨"skipped", some "Modo férias ativo"⟩],
      executorInvoked := false, timeoutDelay := none, randomDraws := 0 }
  else
    let offset := jitterOffset randomOffset q
    let baseTime := day * 86400 + secondsOfDay sched
    let punchTime := baseTime + offset
    let delay := punchTime - now
    { events := [execEvent], executorInvoked := true,
      timeoutDelay := some (max delay 0), randomDraws := 1 }

/-- Result of a punchClock call chain: either the successful response (the
attempt index stands for the payload returned by that attempt's POST) or the
message of the error it threw. -/
inductive PunchResult where
  | ok (payload : ℕ)
  | error (msg : String)
deriving Repr, DecidableEq

/-- Trace of one punchClock call chain (index.js:199-256, part_000:150-194).
result is .ok k when attempt k's submit succeeded (k also stands for the
response payload of that attempt), .error otherwise; attemptsMade is the
attempt counter reached; delays counts the 5-second sleeps performed; tokens
records the token value used by each attempt, head first. -/
structure PunchRun where
  result : PunchResult
  attemptsMade : ℕ
  delays : ℕ
  tokens : List ℕ
deriving Repr, DecidableEq

/-- punchClock from index.js:199-256 (identical in part_000:150-194).  Each
attempt first calls getUserData(token) — a failure there (getUD attempt =
false) throws past the try/catch and aborts the whole chain at once — then the
clocking-event POST, modelled by submit.  On a submit failure with attempt <
maxRetries it sleeps 5 s and recurses as punchClock(token, attempt + 1): the
same token, never a fresh authentication.  Otherwise it throws the
falha-após-maxRetries error. -/
def punchClock (maxRetries : ℕ) (getUD submit : ℕ → Bool) (token attempt : ℕ) : PunchRun :=
  if getUD attempt = false then
    { result := .error "getUserData", attemptsMade := attempt, delays := 0, tokens := [token] }
  else if submit attempt = true then
    { result := .ok attempt, attemptsMade := attempt, delays := 0, tokens := [token] }
  else if attempt < maxRetries then
    let rest := punchClock maxRetries getUD submit token (attempt + 1)
    { result := rest.result, attemptsMade := rest.attemptsMade,
      delays := rest.delays + 1, tokens := token :: rest.tokens }
  else
    { result := .error "exhausted", attemptsMade := attempt, delays := 0, tokens := [token] }
termination_by maxRetries - attempt
decreasing_by omega

/-- Result of one firing callback of index.js (the setTimeout body,
index.js:318-341): how many times authenticate ran, the punchClock trace when
authentication succeeded, and the webhook outcome event. -/
structure FireResult where
  authCalls : ℕ
  run : Option PunchRun
  outcome : Event
deriving Repr, DecidableEq

/-- The setTimeout callback of index.js:318-341: authenticate once (auth = none
models an authentication throw), then punchClock(token) starting at attempt 1;
any thrown error — authentication included — lands in the single catch that
sends the error webhook.  Authentication is never retried and never re-run for
punchClock's retries. -/
def fireCallback (maxRetries : ℕ) (auth : Option ℕ) (getUD submit : ℕ → Bool) : FireResult :=
  match auth with
  | none => { authCalls := 1, run := none, outcome := ⟨"error", none⟩ }
  | some token =>
    let run := punchClock maxRetries getUD submit token 1
    match run.result with
    | .ok _ => { authCalls := 1, run := some run, outcome := ⟨"success", none⟩ }
    | .error _ => { authCalls := 1, run := some run, outcome := ⟨"error", none⟩ }

/-- Split a character list on a separator, keeping empty segments, matching how
a regex alternation over comma-separated tokens carves the string. -/
def splitOnChar (sep : Char) : List Char → List (List Char)
  | [] => [[]]
  | c :: cs =>
    let rest := splitOnChar sep cs
    if c = sep then [] :: rest
    else
      match rest with
      | r :: rs => (c :: r) :: rs
      | [] => [[c]]

/-- One or more decimal digits: the regex atom of one or two \d+ groups. -/
def digitsTok (l : List Char) : Bool := !l.isEmpty && l.all Char.isDigit

/-- A weekday token of index.js's WEEKDAYS regex: \d+(-\d+)? . -/
def numOrRangeTok (l : List Char) : Bool :=
  match splitOnChar '-' l with
  | [a] => digitsTok a
  | [a, b] => digitsTok a && digitsTok b
  | _ => false

/-- The WEEKDAYS validation regex of index.js:86,
    carets-anchored (\*|\d+(-\d+)?)(,\d+(-\d+)?)* :
the first comma-token is a literal star or a number/range, every further
comma-token is a number/range.  No bound on the numeric values and no ordering
constraint between range endpoints is expressed by this regex. -/
def weekdaysAcceptsChars (l : List Char) : Bool :=
  match splitOnChar ',' l with
  | [] => false
  | t :: ts => (t = ['*'] || numOrRangeTok t) && ts.all numOrRangeTok

/-- String-level wrapper of the WEEKDAYS regex test. -/
def weekdaysRegexAccepts (s : String) : Bool := weekdaysAcceptsChars s.data

/-- validateConfig's weekday step (index.js:86-89): the process exits (the only
ConfigError-like failure) exactly when the regex does not match. -/
def weekdaysValidationRejects (s : String) : Bool := !weekdaysRegexAccepts s

/-- A SCHEDULES token per the regex \d{1,2}:\d{2} used by both variants. -/
def scheduleTok (l : List Char) : Bool :=
  match splitOnChar ':' l with
  | [h, m] => (decide (h.length = 1 ∨ h.length = 2) && h.all Char.isDigit)
      && (decide (m.length = 2) && m.all Char.isDigit)
  | _ => false

/-- The SCHEDULES validation regex ^\d{1,2}:\d{2}(,\d{1,2}:\d{2})*$ of
part_000:55 (index.js:81 is the same pattern). -/
def schedulesRegexAccepts (s : String) : Bool :=
  match splitOnChar ',' s.data with
  | [] => false
  | t :: ts => scheduleTok t && ts.all scheduleTok

/-- Environment variables consumed by part_000's validateConfig, plus WEEKDAYS
(defined in its config at part_000:20 but never examined by validateConfig). -/
structure EnvPart000 where
  user : Option String
  password : Option String
  schedules : Option String
  weekdays : Option String
  vacationStart : Option String
  vacationEnd : Option String
deriving Repr, DecidableEq

/-- validateConfig of part_000:46-74: exits (returns true) when USER, PASSWORD
or SCHEDULES is missing, when SCHEDULES fails its regex, when exactly one of
the vacation bounds is set, or when a set vacation bound fails the moment
ISO-8601 validity test — the latter abstracted as the predicate dateValid.
The WEEKDAYS variable is not consulted anywhere in this function. -/
def validateConfigPart000Exits (dateValid : String → Bool) (env : EnvPart000) : Bool :=
  env.user.isNone || env.password.isNone || env.schedules.isNone
    || !(schedulesRegexAccepts (env.schedules.getD ""))
    || (env.vacationStart.isSome != env.vacationEnd.isSome)
    || (env.vacationStart.elim false (fun s => !dateValid s))
    || (env.vacationEnd.elim false (fun s => !dateValid s))

/-- Numeric value of a digit token (how cron parses a day-of-week number). -/
def charsToNat (l : List Char) : ℕ :=
  l.foldl (fun n c => 10 * n + (c.toNat - '0'.toNat)) 0

/-- Day-of-week token matching of the cron library consuming the expression
assembled at index.js:288 (minute hour * * WEEKDAYS).  Modelled from the spec:
node-cron is an external dependency, not part of this repository; this follows
standard cron day-of-week semantics as the spec describes them — a single
value matches modulo the 7-is-Sunday alias, a range a-b matches a ≤ d ≤ b. -/
def weekdayTokenMatch (tok : List Char) (d : ℕ) : Bool :=
  match splitOnChar '-' tok with
  | [a] => charsToNat a % 7 == d
  | [a, b] => decide (charsToNat a ≤ d ∧ d ≤ charsToNat b)
  | _ => false

/-- Day-of-week field matching of the cron expression of index.js:288.
Modelled from the spec (external cron library): a literal star matches every
weekday, otherwise some comma-token must match. -/
def cronWeekdayMatch (pat : String) (d : ℕ) : Bool :=
  if pat = "*" then true
  else (splitOnChar ',' pat.data).any (fun t => weekdayTokenMatch t d)

/-! Helper lemmas about the tokenizer and the executor trace. -/

/-- Splitting a list that avoids the separator yields the whole list. -/
theorem splitOnChar_of_not_mem {sep : Char} : ∀ {l : List Char}, sep ∉ l →
    splitOnChar sep l = [l] := by
  intro l h
  induction l with
  | nil => rfl
  | cons c cs ih =>
    have hc : c ≠ sep := fun hcs => h (hcs ▸ List.mem_cons_self c cs)
    have hcs : sep ∉ cs := fun hm => h (List.mem_cons_of_mem c hm)
    rw [splitOnChar, ih hcs]
    simp [hc]

/-- Splitting at the first separator occurrence peels off the prefix. -/
theorem splitOnChar_mid {sep : Char} : ∀ {l1 l2 : List Char}, sep ∉ l1 →
    splitOnChar sep (l1 ++ sep :: l2) = l1 :: splitOnChar sep l2 := by
  intro l1
  induction l1 with
  | nil => intro l2 _; simp [splitOnChar]
  | cons c cs ih =>
    intro l2 h
    have hc : c ≠ sep := fun hcs => h (hcs ▸ List.mem_cons_self c cs)
    have hcs : sep ∉ cs := fun hm => h (List.mem_cons_of_mem c hm)
    rw [List.cons_append, splitOnChar, ih hcs]
    simp [hc]

/-- A non-digit character never occurs in an all-digit token. -/
theorem not_mem_of_all_digit {l : List Char} (h : l.all Char.isDigit = true)
    {c : Char} (hc : c.isDigit = false) : c ∉ l := by
  intro hm
  have := List.all_eq_true.mp h c hm
  rw [hc] at this
  exact Bool.noConfusion this

/-- Every range token made of two nonempty digit runs — the endpoints being in
any order and of any magnitude — matches the WEEKDAYS validation regex. -/
theorem range_token_accepted (da db : List Char) (h1 : da ≠ []) (h2 : db ≠ [])
    (hd1 : da.all Char.isDigit = true) (hd2 : db.all Char.isDigit = true) :
    weekdaysAcceptsChars (da ++ '-' :: db) = true := by
  have hcomma_da : ',' ∉ da := not_mem_of_all_digit hd1 (by decide)
  have hcomma_db : ',' ∉ db := not_mem_of_all_digit hd2 (by decide)
  have hdash_da : '-' ∉ da := not_mem_of_all_digit hd1 (by decide)
  have hdash_db : '-' ∉ db := not_mem_of_all_digit hd2 (by decide)
  have hcomma : ',' ∉ da ++ '-' :: db := by
    intro hm
    rcases List.mem_append.mp hm with h | h
    · exact hcomma_da h
    · rcases List.mem_cons.mp h with h | h
      · exact absurd h (by decide)
      · exact hcomma_db h
  have htok : numOrRangeTok (da ++ '-' :: db) = true := by
    rw [numOrRangeTok.eq_def, splitOnChar_mid hdash_da, splitOnChar_of_not_mem hdash_db]
    simp [digitsTok, h1, h2, hd1, hd2]
  rw [weekdaysAcceptsChars.eq_def, splitOnChar_of_not_mem hcomma]
  simp [htok]

/-- Every token of a punchClock trace is the one token the chain was started
with: the recursion at index.js:251 passes the same token to every retry. -/
theorem punchClock_tokens_eq (R : ℕ) (g s : ℕ → Bool) (t : ℕ) :
    ∀ k a x, R - a ≤ k → x ∈ (punchClock R g s t a).tokens → x = t := by
  intro k
  induction k with
  | zero =>
    intro a x ha hx
    rw [punchClock] at hx
    split_ifs at hx with h1 h2 h3
    · simpa using hx
    · simpa using hx
    · omega
    · simpa using hx
  | succ k ih =>
    intro a x ha hx
    rw [punchClock] at hx
    split_ifs at hx with h1 h2 h3
    · simpa using hx
    · simpa using hx
    · simp only [List.mem_cons] at hx
      rcases hx with h | h
      · exact h
      · exact ih (a + 1) x (by omega) h
    · simpa using hx

/-- The drawn jitter stays in the closed-open integer range when the bound is
positive and the random value lies in the unit interval. -/
theorem jitter_bounds (R : ℕ) (hR : 1 ≤ R) (q : ℚ) (h0 : 0 ≤ q) (h1 : q < 1) :
    -(R : ℤ) ≤ jitterOffset R q ∧ jitterOffset R q < R := by
  unfold jitterOffset
  have hnn : (0 : ℤ) ≤ ⌊q * (2 * (R : ℚ))⌋ :=
    Int.floor_nonneg.mpr (mul_nonneg h0 (by positivity))
  have hub : ⌊q * (2 * (R : ℚ))⌋ < 2 * (R : ℤ) := by
    rw [Int.floor_lt]
    push_cast
    have hpos : (0 : ℚ) < 2 * (R : ℚ) := by
      have : (1 : ℚ) ≤ (R : ℚ) := by exact_mod_cast hR
      linarith
    calc q * (2 * (R : ℚ)) < 1 * (2 * (R : ℚ)) := mul_lt_mul_of_pos_right h1 hpos
      _ = 2 * (R : ℚ) := one_mul _
  omega

/-- A zero jitter bound always yields a zero offset. -/
theorem jitter_zero (q : ℚ) : jitterOffset 0 q = 0 := by
  simp [jitterOffset]

/-! Claims. -/

/-- Claim C1, refuted on the coarse minute-poll variant: on one calendar day
(day 0) with schedule 12:00 and randomOffset 300, the tick at 12:00:00 (draw
31/60, offset +10 s) and the tick at 12:01:00 (draw 23/40, offset +45 s) both
satisfy their ±30 s windows, so the same (nominal time, calendar day) pair
fires twice and the punch executor runs twice — more than one execution per
nominal time per day. -/
theorem c1_coarse_fires_twice_per_day :
    (coarseTick 300 none ⟨12, 0⟩ 0 43200 (31/60) ⟨"success", none⟩).fired = true ∧
    (coarseTick 300 none ⟨12, 0⟩ 0 43200 (31/60) ⟨"success", none⟩).executorInvoked = true ∧
    (coarseTick 300 none ⟨12, 0⟩ 0 43260 (23/40) ⟨"success", none⟩).fired = true ∧
    (coarseTick 300 none ⟨12, 0⟩ 0 43260 (23/40) ⟨"success", none⟩).executorInvoked = true := by
  refine ⟨?_, ?_, ?_, ?_⟩ <;>
    norm_num [coarseTick, coarseFires, isVacationPeriod, jitterOffset, secondsOfDay]

/-- Claim C2, counterexample: with maxRetries 3 and a submit that fails twice
then succeeds, three attempts are made but authenticate runs exactly once (not
once per attempt) and all three attempts carry the same token 42; and when
authenticate itself fails, the callback reports an error outcome with no
punchClock run at all — the retry loop never sees it. -/
theorem c2_counterexample :
    (fireCallback 3 (some 42) (fun _ => true) (fun i => i == 3)).authCalls = 1 ∧
    (punchClock 3 (fun _ => true) (fun i => i == 3) 42 1).attemptsMade = 3 ∧
    (punchClock 3 (fun _ => true) (fun i => i == 3) 42 1).tokens = [42, 42, 42] ∧
    ¬((fireCallback 3 (some 42) (fun _ => true) (fun i => i == 3)).authCalls =
      (punchClock 3 (fun _ => true) (fun i => i == 3) 42 1).attemptsMade) ∧
    (fireCallback 3 none (fun _ => true) (fun i => i == 3)).run = none ∧
    (fireCallback 3 none (fun _ => true) (fun i => i == 3)).outcome = ⟨"error", none⟩ := by
  refine ⟨?_, ?_, ?_, ?_, rfl, rfl⟩ <;> simp [fireCallback, punchClock]

/-- Claim C2 as amended: authentication happens exactly once per firing, before
the retry loop; every retry reuses that same token (the loop wraps only the
user-data query and the submit); and an authentication failure aborts the
firing immediately with an error outcome and no punch attempts, outside the
bounded retry loop. -/
theorem c2_single_auth_shared_token (R : ℕ) (g s : ℕ → Bool) (t a x : ℕ)
    (hx : x ∈ (punchClock R g s t a).tokens) :
    fireCallback R none g s = ⟨1, none, ⟨"error", none⟩⟩ ∧
    (fireCallback R (some t) g s).authCalls = 1 ∧
    x = t := by
  refine ⟨rfl, ?_, punchClock_tokens_eq R g s t (R - a) a x le_rfl hx⟩
  unfold fireCallback
  cases h : (punchClock R g s t 1).result <;> simp [h]

/-- Claim C2 witness: the amended statement applied at maxRetries 3, token 42,
attempt 1, with the sole token of a first-try success. -/
theorem c2_single_auth_shared_token_witness :
    42 ∈ (punchClock 3 (fun _ => true) (fun _ => true) 42 1).tokens ∧
    (fireCallback 3 none (fun _ => true) (fun _ => true) = ⟨1, none, ⟨"error", none⟩⟩ ∧
     (fireCallback 3 (some 42) (fun _ => true) (fun _ => true)).authCalls = 1 ∧
     42 = 42) :=
  ⟨by simp [punchClock],
   c2_single_auth_shared_token 3 (fun _ => true) (fun _ => true) 42 1 42 (by simp [punchClock])⟩

/-- Claim C3, counterexample: with a configured vacation range from day 1 to
day 10 (start ≤ end on calendar dates, so day 10 itself is inside the inclusive
range), isVacationPeriod evaluated at noon of the end date returns false — the
check is an instant comparison against the end date's midnight, so time of day
is not irrelevant and the end date does not match at any hour. -/
theorem c3_counterexample :
    isVacationPeriod (some (startOfDay 1, startOfDay 10)) (startOfDay 10 + 43200) = false ∧
    (1 : ℤ) ≤ 10 ∧ (10 : ℤ) ≤ 10 := by
  decide

/-- Claim C3 as amended: isVacationPeriod compares instants against the two
midnights — it returns true iff start ≤ day (calendar) and either day < end or
the instant is exactly the end date's midnight.  Start and strictly-inside
dates match at any hour, the end date only at 00:00:00; when start > end no
instant matches, and with no range configured it is always false. -/
theorem c3_instant_interval (ds de day sod : ℤ) (h0 : 0 ≤ sod) (h1 : sod < 86400) :
    (isVacationPeriod (some (startOfDay ds, startOfDay de)) (startOfDay day + sod) = true ↔
      ds ≤ day ∧ (day < de ∨ (day = de ∧ sod = 0))) ∧
    isVacationPeriod none (startOfDay day + sod) = false := by
  refine ⟨?_, rfl⟩
  simp only [isVacationPeriod, startOfDay, decide_eq_true_eq]
  constructor
  · rintro ⟨hl, hr⟩
    constructor
    · nlinarith
    · by_cases hde : day < de
      · exact Or.inl hde
      · right
        constructor
        · nlinarith
        · nlinarith
  · rintro ⟨hl, hr⟩
    constructor
    · nlinarith
    · rcases hr with h | ⟨rfl, rfl⟩
      · nlinarith
      · omega

/-- Claim C3 witness: the amended characterization at range day 1 .. day 10
evaluated at noon of day 5, a strictly-inside date, which is blacked out. -/
theorem c3_instant_interval_witness :
    isVacationPeriod (some (startOfDay 1, startOfDay 10)) (startOfDay 5 + 43200) = true := by
  have h := c3_instant_interval 1 10 5 43200 (by norm_num) (by norm_num)
  exact h.1.mpr (by norm_num)

/-- Claim C4: with maxRetries 3, a submit failing twice then succeeding yields
success at attemptsMade 3 with exactly two inter-attempt delays; a submit that
always fails yields the exhausted error at attemptsMade 3 (maxRetries is the
total attempt count) after the same two delays; and in general a first-attempt
success returns immediately with the remote payload, no delay, no further
attempt. -/
theorem c4_retry_counts :
    punchClock 3 (fun _ => true) (fun i => i == 3) 42 1 =
      { result := .ok 3, attemptsMade := 3, delays := 2, tokens := [42, 42, 42] } ∧
    punchClock 3 (fun _ => true) (fun _ => false) 42 1 =
      { result := .error "exhausted", attemptsMade := 3, delays := 2, tokens := [42, 42, 42] } ∧
    (∀ (R t : ℕ) (g s : ℕ → Bool), g 1 = true → s 1 = true →
      punchClock R g s t 1 =
        { result := .ok 1, attemptsMade := 1, delays := 0, tokens := [t] }) := by
  refine ⟨by simp [punchClock], by simp [punchClock], ?_⟩
  intro R t g s hg hs
  rw [punchClock]
  simp [hg, hs]

/-- Claim C4 witness: the first-success clause applied at maxRetries 5 and
token 7 with oracles that succeed on attempt 1. -/
theorem c4_retry_counts_witness :
    ((fun _ => true) : ℕ → Bool) 1 = true ∧
    punchClock 5 (fun _ => true) (fun _ => true) 7 1 =
      { result := .ok 1, attemptsMade := 1, delays := 0, tokens := [7] } :=
  ⟨rfl, c4_retry_counts.2.2 5 7 (fun _ => true) (fun _ => true) rfl rfl⟩

/-- Claim C5, counterexample: in the coarse variant two minute ticks of the
same calendar day for the same nominal time 12:00 each perform their own
Math.random() draw and use different offsets (+10 s at 12:00, +45 s at 12:01)
— the jitter is recomputed on every tick, not drawn once per day. -/
theorem c5_counterexample :
    (coarseTick 300 none ⟨12, 0⟩ 0 43200 (31/60) ⟨"success", none⟩).offset = 10 ∧
    (coarseTick 300 none ⟨12, 0⟩ 0 43260 (23/40) ⟨"success", none⟩).offset = 45 ∧
    (coarseTick 300 none ⟨12, 0⟩ 0 43200 (31/60) ⟨"success", none⟩).randomDraws = 1 ∧
    (coarseTick 300 none ⟨12, 0⟩ 0 43260 (23/40) ⟨"success", none⟩).randomDraws = 1 ∧
    (10 : ℤ) ≠ 45 := by
  refine ⟨?_, ?_, ?_, ?_, by decide⟩ <;>
    norm_num [coarseTick, coarseFires, isVacationPeriod, jitterOffset, secondsOfDay]

/-- Claim C5 as amended: the precise variant draws the jitter exactly once per
firing — once per (nominal time, matched calendar day), a fresh function of
that firing's random value, never memoized — while the coarse variant performs
one fresh draw on every minute tick for every schedule entry, recomputing the
offset within the same day. -/
theorem c5_draw_per_evaluation (R : ℕ) (vac : Option (ℤ × ℤ)) (sched : NominalTime)
    (day sodNow lag : ℤ) (q : ℚ) (e : Event)
    (h : isVacationPeriod vac (day * 86400 + secondsOfDay sched + lag) = false) :
    (coarseTick R vac sched day sodNow q e).randomDraws = 1 ∧
    (coarseTick R vac sched day sodNow q e).offset = jitterOffset R q ∧
    (preciseFire vac R sched day lag q e).randomDraws = 1 ∧
    (preciseFire vac R sched day lag q e).timeoutDelay =
      some (max (jitterOffset R q - lag) 0) := by
  have harith : day * 86400 + secondsOfDay sched + jitterOffset R q -
      (day * 86400 + secondsOfDay sched + lag) = jitterOffset R q - lag := by ring
  refine ⟨?_, ?_, ?_, ?_⟩
  · unfold coarseTick; split_ifs <;> rfl
  · unfold coarseTick; split_ifs <;> rfl
  · simp [preciseFire, h]
  · simp [preciseFire, h, harith]

/-- Claim C5 witness: the amended statement at a non-vacation precise firing on
day 0 for nominal time 12:00. -/
theorem c5_draw_per_evaluation_witness :
    isVacationPeriod none ((0 : ℤ) * 86400 + secondsOfDay ⟨12, 0⟩ + 0) = false ∧
    (preciseFire none 300 ⟨12, 0⟩ 0 0 (31/60) ⟨"success", none⟩).randomDraws = 1 :=
  ⟨rfl, (c5_draw_per_evaluation 300 none ⟨12, 0⟩ 0 0 0 (31/60) ⟨"success", none⟩ rfl).2.2.1⟩

/-- Claim C6, counterexample: the WEEKDAYS startup validation of index.js does
not reject the decreasing range 5-1, nor the out-of-range single value 9 — the
regex test passes for both, so no fatal configuration error occurs. -/
theorem c6_counterexample :
    weekdaysValidationRejects "5-1" = false ∧
    weekdaysValidationRejects "9" = false := by
  decide

/-- Claim C6 as amended: startup validation of the weekday pattern is purely
syntactic.  index.js only tests WEEKDAYS against the regex — every token of
two nonempty digit runs joined by a dash is accepted, whatever the endpoint
order or magnitude, while genuinely malformed patterns such as abc are fatal —
and part_000's validateConfig does not examine WEEKDAYS at all: its exit
decision is unchanged under any replacement of that variable. -/
theorem c6_syntax_only_validation (da db : List Char) (dv : String → Bool)
    (env : EnvPart000) (w : Option String) (h1 : da ≠ []) (h2 : db ≠ [])
    (hd1 : da.all Char.isDigit = true) (hd2 : db.all Char.isDigit = true) :
    weekdaysAcceptsChars (da ++ '-' :: db) = true ∧
    weekdaysValidationRejects "abc" = true ∧
    validateConfigPart000Exits dv { env with weekdays := w } =
      validateConfigPart000Exits dv env :=
  ⟨range_token_accepted da db h1 h2 hd1 hd2, by decide, rfl⟩

/-- Claim C6 witness: the amended statement applied to the digit runs of the
pattern 5-1 itself. -/
theorem c6_syntax_only_validation_witness :
    (['5'] : List Char) ≠ [] ∧
    weekdaysAcceptsChars (['5'] ++ '-' :: ['1']) = true :=
  ⟨by decide,
   (c6_syntax_only_validation ['5'] ['1'] (fun _ => true)
      ⟨none, none, none, none, none, none⟩ none
      (by decide) (by decide) (by decide) (by decide)).1⟩

/-- Claim C7, counterexample: at maxJitterSeconds 0 the drawn offset is 0, yet
the closed-open range from minus zero to zero is empty, so the offset does not
lie in it — the universally quantified range statement fails at m = 0. -/
theorem c7_counterexample :
    jitterOffset 0 0 = 0 ∧
    ¬(-(0 : ℤ) ≤ jitterOffset 0 0 ∧ jitterOffset 0 0 < 0) := by
  norm_num [jitterOffset]

/-- Claim C7 as amended: for every positive bound m and every random value in
the unit interval the drawn offset is an integer in the closed-open range from
-m to m (in particular all draws for m = 300 lie in [-300, 300)), and for
m = 0 the offset is exactly 0 whatever the random value. -/
theorem c7_jitter_range (R : ℕ) (q : ℚ) (hR : 1 ≤ R) (h0 : 0 ≤ q) (h1 : q < 1) :
    (-(R : ℤ) ≤ jitterOffset R q ∧ jitterOffset R q < R) ∧
    (∀ q2 : ℚ, jitterOffset 0 q2 = 0) :=
  ⟨jitter_bounds R hR q h0 h1, jitter_zero⟩

/-- Claim C7 witness: the range bounds at m = 300 and random value 31/60. -/
theorem c7_jitter_range_witness :
    ((1 : ℕ) ≤ 300 ∧ (0 : ℚ) ≤ 31/60 ∧ (31 : ℚ)/60 < 1) ∧
    (-(300 : ℤ) ≤ jitterOffset 300 (31/60) ∧ jitterOffset 300 (31/60) < 300) :=
  ⟨⟨by norm_num, by norm_num, by norm_num⟩,
   (c7_jitter_range 300 (31/60) (by norm_num) (by norm_num) (by norm_num)).1⟩

/-- Claim C8, refuted on the coarse minute-poll variant: day index 6 is a
Saturday (weekday 6), which the configured pattern 1-5 does not match, yet the
coarse tick at 12:00:00 (draw 31/60) fires, invokes the punch executor and
emits an outcome — part_000's scheduler never consults the weekday pattern. -/
theorem c8_coarse_ignores_weekday :
    weekdayOfDay 6 = 6 ∧
    cronWeekdayMatch "1-5" 6 = false ∧
    (coarseTick 300 none ⟨12, 0⟩ 6 43200 (31/60) ⟨"success", none⟩).executorInvoked = true ∧
    (coarseTick 300 none ⟨12, 0⟩ 6 43200 (31/60) ⟨"success", none⟩).events =
      [⟨"success", none⟩] := by
  refine ⟨by decide, by decide, ?_, ?_⟩ <;>
    norm_num [coarseTick, coarseFires, isVacationPeriod, jitterOffset, secondsOfDay]

/-- Claim C9, counterexample: the precise variant's vacation skip carries the
reason Modo férias ativo, not vacation_period; and in the coarse variant two
in-window ticks of the same vacation day each emit their own skipped outcome,
so the skip is not unique per (nominal time, calendar day) there. -/
theorem c9_counterexample :
    (preciseFire (some (startOfDay 0, startOfDay 10)) 300 ⟨12, 0⟩ 1 0 (31/60)
        ⟨"success", none⟩).events = [⟨"skipped", some "Modo férias ativo"⟩] ∧
    ("Modo férias ativo" : String) ≠ "vacation_period" ∧
    (coarseTick 300 (some (startOfDay 0, startOfDay 10)) ⟨12, 0⟩ 1 43200 (31/60)
        ⟨"success", none⟩).events = [⟨"skipped", some "vacation_period"⟩] ∧
    (coarseTick 300 (some (startOfDay 0, startOfDay 10)) ⟨12, 0⟩ 1 43260 (23/40)
        ⟨"success", none⟩).events = [⟨"skipped", some "vacation_period"⟩] := by
  refine ⟨?_, by decide, ?_, ?_⟩ <;>
    norm_num [preciseFire, coarseTick, coarseFires, isVacationPeriod, startOfDay,
      jitterOffset, secondsOfDay]

/-- Claim C9 as amended: whenever a firing condition is reached while the
vacation blackout holds, that evaluation emits exactly one skipped outcome and
never invokes the punch executor; the reason string is vacation_period in the
coarse variant and Modo férias ativo in the precise variant (which also
registers no timer and draws no jitter for a skipped firing). -/
theorem c9_vacation_skip (R : ℕ) (vac : Option (ℤ × ℤ)) (sched : NominalTime)
    (day sodNow lag : ℤ) (q : ℚ) (e : Event)
    (hfire : coarseFires R sched day sodNow q = true)
    (hvacC : isVacationPeriod vac (day * 86400 + sodNow) = true)
    (hvacP : isVacationPeriod vac (day * 86400 + secondsOfDay sched + lag) = true) :
    coarseTick R vac sched day sodNow q e =
      { fired := true, events := [⟨"skipped", some "vacation_period"⟩],
        executorInvoked := false, randomDraws := 1, offset := jitterOffset R q } ∧
    preciseFire vac R sched day lag q e =
      { events := [⟨"skipped", some "Modo férias ativo"⟩], executorInvoked := false,
        timeoutDelay := none, randomDraws := 0 } := by
  constructor
  · simp [coarseTick, hfire, hvacC]
  · simp [preciseFire, hvacP]

/-- Claim C9 witness: the amended statement at the in-window vacation tick of
day 1 at 12:00 with vacation range day 0 .. day 10. -/
theorem c9_vacation_skip_witness :
    coarseFires 300 ⟨12, 0⟩ 1 43200 (31/60) = true ∧
    (coarseTick 300 (some (startOfDay 0, startOfDay 10)) ⟨12, 0⟩ 1 43200 (31/60)
      ⟨"success", none⟩).executorInvoked = false := by
  have hfire : coarseFires 300 ⟨12, 0⟩ 1 43200 (31/60) = true := by
    norm_num [coarseFires, jitterOffset, secondsOfDay]
  have h := c9_vacation_skip 300 (some (startOfDay 0, startOfDay 10)) ⟨12, 0⟩ 1 43200 0
    (31/60) ⟨"success", none⟩ hfire (by decide) (by decide)
  exact ⟨hfire, by rw [h.1]⟩

/-- Claim C10: in the precise variant, outside the vacation gate the setTimeout
delay is the clamp max(punchTime − now, 0): it is never negative, it is exactly
0 whenever the effective instant already lies in the past (offset ≤ lag), and
the callback — hence the punch — is always registered, never dropped. -/
theorem c10_delay_never_negative (vac : Option (ℤ × ℤ)) (R : ℕ) (sched : NominalTime)
    (day lag : ℤ) (q : ℚ) (e : Event)
    (h : isVacationPeriod vac (day * 86400 + secondsOfDay sched + lag) = false) :
    (preciseFire vac R sched day lag q e).timeoutDelay =
      some (max (jitterOffset R q - lag) 0) ∧
    (∀ d : ℤ, (preciseFire vac R sched day lag q e).timeoutDelay = some d → 0 ≤ d) ∧
    (jitterOffset R q ≤ lag →
      (preciseFire vac R sched day lag q e).timeoutDelay = some 0) ∧
    (preciseFire vac R sched day lag q e).executorInvoked = true := by
  have harith : day * 86400 + secondsOfDay sched + jitterOffset R q -
      (day * 86400 + secondsOfDay sched + lag) = jitterOffset R q - lag := by ring
  refine ⟨by simp [preciseFire, h, harith], ?_, ?_, by simp [preciseFire, h]⟩
  · intro d hd
    simp [preciseFire, h, harith] at hd
    omega
  · intro hle
    have hmax : max (jitterOffset R q - lag) 0 = 0 := max_eq_right (by omega)
    simp [preciseFire, h, harith, hmax]

/-- Claim C10 witness: a draw of 0 at bound 300 gives offset -300, an effective
instant in the past, and the registered delay is clamped to exactly 0. -/
theorem c10_delay_never_negative_witness :
    isVacationPeriod none ((0 : ℤ) * 86400 + secondsOfDay ⟨8, 0⟩ + 0) = false ∧
    (preciseFire none 300 ⟨8, 0⟩ 0 0 0 ⟨"success", none⟩).timeoutDelay = some 0 := by
  have h := c10_delay_never_negative none 300 ⟨8, 0⟩ 0 0 0 ⟨"success", none⟩ rfl
  exact ⟨rfl, h.2.2.1 (by norm_num [jitterOffset])⟩

end SeniorAutoPonto
